import Mathlib

/-!
Shallow embedding of the company-information summarizer
(`src/summarizer.py`, `src/main.py`) of the repository
`company_information_summary`, together with theorems settling the
frozen claims about its specification.

External effects (HTTP GET/HEAD requests, the SerpAPI JSON endpoint and
the OpenAI chat endpoint) are modelled by an explicit environment `Env`
of oracles; a Python `try/except` around such a call becomes a `match`
on the `Except` value of the oracle.  Parsed HTML (BeautifulSoup) is modelled
by the `Element` tree; `get_text(strip=True)` is modelled by the
concatenation of the per-node `ownText` fields, which are assumed to be
stored already stripped.
-/

/-- Python substring prefix test on character lists: `charsMatchAt n h`
is true when `n` occurs at the very front of `h`. -/
def charsMatchAt : List Char → List Char → Bool
  | [], _ => true
  | _ :: _, [] => false
  | a :: as, b :: bs => a == b && charsMatchAt as bs

/-- Python substring containment on character lists: `charsContain n h`
is true when `n` occurs contiguously somewhere in `h`. -/
def charsContain : List Char → List Char → Bool
  | n, [] => charsMatchAt n []
  | n, c :: cs => charsMatchAt n (c :: cs) || charsContain n cs

/-- Python `needle in hay` on strings (code-point substring test). -/
def strContains (hay needle : String) : Bool :=
  charsContain needle.data hay.data

/-- Python `s.startswith(pre)`. -/
def strStarts (s pre : String) : Bool :=
  charsMatchAt pre.data s.data

/-- Python `s.lower()` (per code point, as in CPython for ASCII). -/
def strLower (s : String) : String :=
  String.mk (s.data.map Char.toLower)

/-- Python slice `s[:n]` (by code points). -/
def strTake (s : String) (n : Nat) : String :=
  String.mk (s.data.take n)

/-- Python `s.strip()`: leading and trailing whitespace removed. -/
def strStrip (s : String) : String :=
  String.mk (((s.data.dropWhile Char.isWhitespace).reverse.dropWhile
    Char.isWhitespace).reverse)

/-- A parsed HTML element: tag name, class list, attributes, the
own (already stripped) text content of the element, and child elements. -/
inductive Element : Type where
  | mk : String → List String → List (String × String) → String → List Element → Element

def Element.tag : Element → String
  | .mk t _ _ _ _ => t

def Element.classes : Element → List String
  | .mk _ c _ _ _ => c

def Element.attrs : Element → List (String × String)
  | .mk _ _ a _ _ => a

def Element.ownText : Element → String
  | .mk _ _ _ x _ => x

def Element.children : Element → List Element
  | .mk _ _ _ _ ch => ch

mutual

/-- Pre-order list of an element and all of its descendants (document
order, as BeautifulSoup traverses it). -/
def Element.allElems : Element → List Element
  | .mk t c a x ch => Element.mk t c a x ch :: allElemsList ch

def allElemsList : List Element → List Element
  | [] => []
  | e :: es => Element.allElems e ++ allElemsList es

end

mutual

/-- Pre-order list of the stripped text strings of an element tree. -/
def Element.textsOf : Element → List String
  | .mk _ _ _ x ch => x :: textsOfList ch

def textsOfList : List Element → List String
  | [] => []
  | e :: es => Element.textsOf e ++ textsOfList es

end

/-- BeautifulSoup `element.get_text(strip=True)`: the stripped text
pieces of the subtree concatenated (empty pieces dropped). -/
def Element.getText (e : Element) : String :=
  String.join ((Element.textsOf e).filter (fun s => s != ""))

/-- BeautifulSoup `element.get(key, dflt)` on attributes. -/
def Element.getAttr (e : Element) (key dflt : String) : String :=
  match e.attrs.find? (fun kv => kv.fst == key) with
  | some kv => kv.snd
  | none => dflt

/-- BeautifulSoup `element.find(...)`: first descendant (document
order) satisfying the predicate. -/
def Element.findFirst (e : Element) (p : Element → Bool) : Option Element :=
  (allElemsList e.children).find? p

/-- BeautifulSoup `soup.find_all(...)` over a parsed document (the
document is the list of its top-level elements): all elements of the
tree, in document order, satisfying the predicate. -/
def docFindAll (doc : List Element) (p : Element → Bool) : List Element :=
  (allElemsList doc).filter p

mutual

/-- BeautifulSoup `tag.decompose()` applied to every descendant whose
tag name is in `names` (used by `_fetch_website_content` for
script/style/nav/footer/header removal). -/
def removeTagsElem : List String → Element → Element
  | names, .mk t c a x ch => .mk t c a x (removeTagsList names ch)

def removeTagsList : List String → List Element → List Element
  | _, [] => []
  | names, e :: es =>
    (if names.contains e.tag then [] else [removeTagsElem names e])
      ++ removeTagsList names es

end

/-- One collected search/news entry.  `title`, `snippet` and `link` are
the dict entries built in `summarizer.py`; `date` is `some s` exactly
when the Python dict carries a `"date"` key (with value `s`, possibly
empty) and `none` when the key is absent. -/
structure SearchResult where
  title : String
  snippet : String
  link : String
  date : Option String
deriving Repr, DecidableEq

/-- One entry of a SerpAPI `organic_results` / `news_results` array;
`none` fields model absent JSON keys (read with `.get(k, "")`). -/
structure SerpItem where
  title : Option String
  snippet : Option String
  link : Option String
  date : Option String

/-- The decoded SerpAPI JSON body; `none` models an absent key. -/
structure SerpData where
  organicResults : Option (List SerpItem)
  newsResults : Option (List SerpItem)

/-- A SerpAPI HTTP response: status code and the outcome of
`response.json()` (which can itself raise). -/
structure SerpResp where
  status : Nat
  json : Except String SerpData

/-- An HTML HTTP response: status code and the parsed document (the
list of top-level elements of the soup). -/
structure HtmlPage where
  status : Nat
  root : List Element

/-- The environment of external effects: configuration read at
construction time and one oracle per kind of outbound call.  An
`Except.error` value of an oracle models the corresponding Python call
raising an exception. -/
structure Env where
  serpapiKey : Option String
  hasClient : Bool
  serpGeneral : Except String SerpResp
  serpNews : Except String SerpResp
  httpGet : String → Except String HtmlPage
  httpHead : String → Except String String
  modelCall : String → String → Except String String

/-- UTF-8 bytes of a code point (as `Nat`s), for `quote_plus`. -/
def charUtf8 (n : Nat) : List Nat :=
  if n < 128 then [n]
  else if n < 2048 then [192 + n / 64, 128 + n % 64]
  else if n < 65536 then [224 + n / 4096, 128 + (n / 64) % 64, 128 + n % 64]
  else [240 + n / 262144, 128 + (n / 4096) % 64, 128 + (n / 64) % 64, 128 + n % 64]

/-- UTF-8 byte sequence of a string. -/
def strUtf8 (s : String) : List Nat :=
  s.data.foldr (fun c acc => charUtf8 c.toNat ++ acc) []

/-- Upper-case hex digit. -/
def hexDigitStr (n : Nat) : String :=
  ["0", "1", "2", "3", "4", "5", "6", "7", "8", "9",
   "A", "B", "C", "D", "E", "F"].getD n "0"

/-- Percent escape of one byte, upper-case, as `urllib` produces it. -/
def byteEsc (b : Nat) : String :=
  "%" ++ hexDigitStr (b / 16) ++ hexDigitStr (b % 16)

/-- Bytes `urllib.parse.quote_plus` leaves unescaped: ASCII
alphanumerics and `-`, `.`, `_`, `~`. -/
def isSafeByte (b : Nat) : Bool :=
  (48 ≤ b && b ≤ 57) || (65 ≤ b && b ≤ 90) || (97 ≤ b && b ≤ 122)
    || b == 45 || b == 46 || b == 95 || b == 126

/-- `urllib.parse.quote_plus(s)`: space becomes `+`, safe bytes are
kept, every other UTF-8 byte is percent-escaped. -/
def quotePlus (s : String) : String :=
  String.join ((strUtf8 s).map (fun b =>
    if b == 32 then "+"
    else if isSafeByte b then String.singleton (Char.ofNat b)
    else byteEsc b))

/-- The URL `_search_duckduckgo_html` actually requests.  The source
computes `encoded_query = quote_plus(query)` but then uses a hard-coded
literal URL (the line using the computed query is commented out). -/
def ddgRequestUrl (_query : String) : String :=
  "https://duckduckgo.com/html/?q=미래시스템"

/-- Modelled from the spec: the intended search URL, built from the
URL-encoded computed query (the commented-out line of the source and
the free-scrape strategy of the spec), to be compared with `ddgRequestUrl`.
This models behavior the spec describes but the source does not
implement. -/
def specDdgRequestUrl (query : String) : String :=
  "https://duckduckgo.com/html/?q=" ++ quotePlus query

/-- Selector strategy A: `soup.find_all("div", class_="result")`. -/
def isResultDiv (e : Element) : Bool :=
  e.tag == "div" && e.classes.contains "result"

/-- Selector strategy B: `soup.find_all("div", class_="web-result")`. -/
def isWebResultDiv (e : Element) : Bool :=
  e.tag == "div" && e.classes.contains "web-result"

/-- Selector strategy C, the permissive class-lambda call: a div such
that some CSS class contains `"result"` case-insensitively. -/
def isResultLikeDiv (e : Element) : Bool :=
  e.tag == "div" && e.classes.any (fun c => strContains (strLower c) "result")

/-- The ordered fallback selection of candidate result blocks:
`find_all(A)[:max] or find_all(B)[:max] or find_all(C)[:max]`. -/
def selectResultElements (doc : List Element) (maxResults : Nat) : List Element :=
  let a := (docFindAll doc isResultDiv).take maxResults
  if !a.isEmpty then a
  else
    let b := (docFindAll doc isWebResultDiv).take maxResults
    if !b.isEmpty then b
    else (docFindAll doc isResultLikeDiv).take maxResults

/-- The title element chain: `result__a` anchor, `result-link` anchor,
`result__title` heading, then any anchor. -/
def findTitleElem (e : Element) : Option Element :=
  ((((e.findFirst (fun x => x.tag == "a" && x.classes.contains "result__a")).orElse
    (fun _ => e.findFirst (fun x => x.tag == "a" && x.classes.contains "result-link"))).orElse
    (fun _ => e.findFirst (fun x => x.tag == "h2" && x.classes.contains "result__title"))).orElse
    (fun _ => e.findFirst (fun x => x.tag == "a")))

/-- The snippet element chain: `result__snippet` as anchor, div, span
or paragraph. -/
def findSnippetElem (e : Element) : Option Element :=
  ((((e.findFirst (fun x => x.tag == "a" && x.classes.contains "result__snippet")).orElse
    (fun _ => e.findFirst (fun x => x.tag == "div" && x.classes.contains "result__snippet"))).orElse
    (fun _ => e.findFirst (fun x => x.tag == "span" && x.classes.contains "result__snippet"))).orElse
    (fun _ => e.findFirst (fun x => x.tag == "p" && x.classes.contains "result__snippet")))

/-- The date text of a news candidate: `result__date` span or a `time`
element, empty when absent. -/
def newsDate (e : Element) : String :=
  match (e.findFirst (fun x => x.tag == "span" && x.classes.contains "result__date")).orElse
      (fun _ => e.findFirst (fun x => x.tag == "time")) with
  | some d => d.getText
  | none => ""

/-- Link normalization of `_search_duckduckgo_html`: redirect-wrapper
links are resolved by a HEAD request (keeping the original link when
the request fails or yields an empty final URL), other non-`http`
links are prefixed with the source domain. -/
def normalizeLink (env : Env) (link : String) : String :=
  if strStarts link "/l/?kh=" || strStarts link "/l/?" then
    match env.httpHead ("https://duckduckgo.com" ++ link) with
    | .ok finalUrl => if finalUrl != "" then finalUrl else link
    | .error _ => link
  else if !(strStarts link "http") then "https://duckduckgo.com" ++ link
  else link

/-- Extraction of one candidate block: title element chain, link
normalization, snippet chain, optional date; `none` when no title
element is found or the title text is empty (the candidate is
skipped). -/
def extractOne (env : Env) (isNews : Bool) (e : Element) : Option SearchResult :=
  match findTitleElem e with
  | none => none
  | some titleElem =>
    let title := titleElem.getText
    let link := normalizeLink env (titleElem.getAttr "href" "")
    let snippet :=
      match findSnippetElem e with
      | some se => se.getText
      | none => ""
    if title = "" then none
    else
      some { title := title, snippet := snippet, link := link,
             date := if isNews then some (newsDate e) else none }

/-- The extraction loop over the candidate blocks: append accepted
results, break once `max_results` have been accepted (`fuel` is the
number of further results still allowed). -/
def ddgLoop (env : Env) (isNews : Bool) : List Element → Nat → List SearchResult
  | [], _ => []
  | e :: rest, fuel =>
    match extractOne env isNews e with
    | none => ddgLoop env isNews rest fuel
    | some r => if fuel ≤ 1 then [r] else r :: ddgLoop env isNews rest (fuel - 1)

/-- Result extraction from a parsed DuckDuckGo results document. -/
def ddgExtract (env : Env) (doc : List Element) (maxResults : Nat) (isNews : Bool) :
    List SearchResult :=
  ddgLoop env isNews (selectResultElements doc maxResults) maxResults

/-- `_search_duckduckgo_html`: fetch the (hard-coded) search URL and
extract results; any transport error or `raise_for_status` (4xx/5xx)
is caught by the `try/except` of the function itself, yielding the results
collected so far (none). -/
def searchDuckduckgoHtml (env : Env) (query : String) (maxResults : Nat) (isNews : Bool) :
    List SearchResult :=
  match env.httpGet (ddgRequestUrl query) with
  | .error _ => []
  | .ok page =>
    if 400 ≤ page.status && page.status < 600 then []
    else ddgExtract env page.root maxResults isNews

/-- One SerpAPI general-search item as appended to the result list
(top five, no `date` key). -/
def serpGeneralItem (it : SerpItem) : SearchResult :=
  { title := it.title.getD "", snippet := it.snippet.getD "",
    link := it.link.getD "", date := none }

/-- One SerpAPI news item as appended to the result list (top three,
with a `date` key that defaults to the empty string). -/
def serpNewsItem (it : SerpItem) : SearchResult :=
  { title := it.title.getD "", snippet := it.snippet.getD "",
    link := it.link.getD "", date := some (it.date.getD "") }

/-- `_search_company_info`: SerpAPI when a key is configured (general
query top 5, then news query top 3; each request guarded by its own
`try/except`, a failure contributing no results), otherwise the two
DuckDuckGo scrapes with caps 5 and 3. -/
def searchCompanyInfo (env : Env) (companyName : String) (_companyUrl : Option String) :
    List SearchResult :=
  match env.serpapiKey with
  | some _ =>
    let r1 :=
      match env.serpGeneral with
      | .error _ => []
      | .ok resp =>
        if resp.status == 200 then
          match resp.json with
          | .error _ => []
          | .ok data =>
            match data.organicResults with
            | some items => (items.take 5).map serpGeneralItem
            | none => []
        else []
    let r2 :=
      match env.serpNews with
      | .error _ => []
      | .ok resp =>
        if resp.status == 200 then
          match resp.json with
          | .error _ => []
          | .ok data =>
            match data.newsResults with
            | some items => (items.take 3).map serpNewsItem
            | none => []
        else []
    r1 ++ r2
  | none =>
    let generalResults :=
      searchDuckduckgoHtml env (companyName ++ " 회사 소개 인재상") 5 false
    let newsResults :=
      searchDuckduckgoHtml env (companyName ++ " 최근 뉴스 비전 전략") 3 true
    generalResults ++ newsResults

/-- `_fetch_website_content`: fetch the page, drop
script/style/nav/footer/header subtrees, join the visible text with
single spaces and cap it at 5000 characters; `none` on any fetch or
status failure. -/
def fetchWebsiteContent (env : Env) (url : String) : Option String :=
  match env.httpGet url with
  | .error _ => none
  | .ok page =>
    if 400 ≤ page.status && page.status < 600 then none
    else
      let cleaned := removeTagsList ["script", "style", "nav", "footer", "header"] page.root
      let text := String.intercalate " " ((textsOfList cleaned).filter (fun s => s != ""))
      some (if text.length > 5000 then strTake text 5000 else text)

/-- Python truthiness of the optional website content (`None` and the
empty string are falsy). -/
def wcTruthy : Option String → Bool
  | some w => w != ""
  | none => false

/-- The talent keyword list of `_generate_talent_profile` (the literal
list in the source repeats 인재상). -/
def talentKeywordsGen : List String :=
  ["인재상", "채용", "인재", "인사", "인재상", "인재관"]

/-- The talent keyword list of
`_format_search_results_as_talent_profile`. -/
def talentKeywordsFmt : List String :=
  ["인재상", "채용", "인재", "인사", "인재관"]

/-- Talent predicate: some talent keyword occurs in the lower-cased
title concatenated with the lower-cased snippet. -/
def hasTalentKw (r : SearchResult) : Bool :=
  talentKeywordsFmt.any (fun k => strContains (strLower r.title ++ strLower r.snippet) k)

/-- The talent filter as written in `_generate_talent_profile`. -/
def talentResultsGen (rs : List SearchResult) : List SearchResult :=
  rs.filter (fun r =>
    talentKeywordsGen.any (fun k => strContains (strLower r.title ++ strLower r.snippet) k))

/-- The talent filter as written in
`_format_search_results_as_talent_profile`. -/
def talentResultsFmt (rs : List SearchResult) : List SearchResult :=
  rs.filter (fun r =>
    talentKeywordsFmt.any (fun k => strContains (strLower r.title ++ strLower r.snippet) k))

/-- News predicate: a truthy `date` entry, or 뉴스/기사 in the
lower-cased title. -/
def isNewsResult (r : SearchResult) : Bool :=
  (match r.date with
   | some d => d != ""
   | none => false)
  || strContains (strLower r.title) "뉴스"
  || strContains (strLower r.title) "기사"

/-- The news filter shared by `_generate_recent_vision` and
`_format_search_results_as_vision`. -/
def newsResultsOf (rs : List SearchResult) : List SearchResult :=
  rs.filter isNewsResult

/-- The vision keyword list. -/
def visionKeywords : List String :=
  ["비전", "전략", "목표", "방향", "미래"]

/-- Vision predicate: some vision keyword occurs in the lower-cased
title concatenated with the lower-cased snippet. -/
def hasVisionKw (r : SearchResult) : Bool :=
  visionKeywords.any (fun k => strContains (strLower r.title ++ strLower r.snippet) k)

/-- The vision filter, used only on the empty-news branch. -/
def visionResultsOf (rs : List SearchResult) : List SearchResult :=
  rs.filter hasVisionKw

/-- Numbered `title / snippet / link` rendering (1-based) used by the
fallback formatters. -/
def renderPlainFrom : Nat → List SearchResult → String
  | _, [] => ""
  | i, r :: rest =>
    toString i ++ ". " ++ r.title ++ "\n"
      ++ (if r.snippet != "" then "   " ++ r.snippet ++ "\n" else "")
      ++ (if r.link != "" then "   링크: " ++ r.link ++ "\n" else "")
      ++ "\n" ++ renderPlainFrom (i + 1) rest

/-- Numbered news rendering with a `[date]` prefix (date entry absent
defaults to 날짜 미상). -/
def renderNewsFrom : Nat → List SearchResult → String
  | _, [] => ""
  | i, r :: rest =>
    toString i ++ ". [" ++ r.date.getD "날짜 미상" ++ "] " ++ r.title ++ "\n"
      ++ (if r.snippet != "" then "   " ++ r.snippet ++ "\n" else "")
      ++ (if r.link != "" then "   링크: " ++ r.link ++ "\n" else "")
      ++ "\n" ++ renderNewsFrom (i + 1) rest

/-- `_format_search_results_as_overview`. -/
def formatOverview (companyName : String) (rs : List SearchResult) (wc : Option String) :
    String :=
  let text := "=== " ++ companyName ++ " 회사 개요 ===\n\n"
  if rs.isEmpty && !wcTruthy wc then
    text ++ "검색 결과를 찾을 수 없습니다. 회사 홈페이지 URL을 입력하시면 더 많은 정보를 얻을 수 있습니다."
  else
    let text := text ++ (if rs.isEmpty then "" else "【검색 결과】\n\n" ++ renderPlainFrom 1 (rs.take 5))
    let text := text ++
      (if wcTruthy wc then
        let w := wc.getD ""
        "\n【회사 홈페이지 내용】\n\n"
          ++ strTake w 2000
          ++ (if w.length > 2000 then "... (내용이 길어 일부만 표시됩니다)" else "")
      else "")
    text

/-- The website content is shown in the talent section exactly when it
is truthy and mentions 인재상 or 채용. -/
def wcTalentRelevant (wc : Option String) : Bool :=
  wcTruthy wc && (strContains (wc.getD "") "인재상" || strContains (wc.getD "") "채용")

/-- The talent-related excerpt of the website content: the lines
mentioning 인재상/채용/인재 (at most ten), or the first 1000 characters
when no line matches. -/
def talentWebLines (w : String) : String :=
  let lines := w.splitOn "\n"
  let talentLines := lines.filter (fun line =>
    strContains line "인재상" || strContains line "채용" || strContains line "인재")
  if talentLines.isEmpty then strTake w 1000
  else String.intercalate "\n" (talentLines.take 10)

/-- `_format_search_results_as_talent_profile`. -/
def formatTalentProfile (companyName : String) (rs : List SearchResult) (wc : Option String) :
    String :=
  let text := "=== " ++ companyName ++ " 인재상 ===\n\n"
  let talent := talentResultsFmt rs
  let text := text ++
    (if talent.isEmpty then "인재상 관련 검색 결과를 찾을 수 없습니다.\n\n"
     else "【인재상 관련 검색 결과】\n\n" ++ renderPlainFrom 1 (talent.take 5))
  let text := text ++
    (if wcTalentRelevant wc then
      "\n【홈페이지 인재상 관련 내용】\n\n" ++ talentWebLines (wc.getD "")
     else "")
  text ++
    (if talent.isEmpty && !wcTalentRelevant wc then
      "\n💡 팁: 회사 홈페이지의 채용 페이지나 인재상 페이지 URL을 입력하시면 더 정확한 정보를 얻을 수 있습니다."
     else "")

/-- `_format_search_results_as_vision`. -/
def formatVision (companyName : String) (rs : List SearchResult) : String :=
  let text := "=== " ++ companyName ++ " 최근 비전 및 전략 ===\n\n"
  let news := newsResultsOf rs
  if !news.isEmpty then
    text ++ "【최근 뉴스/기사】\n\n" ++ renderNewsFrom 1 (news.take 5)
  else
    let vision := visionResultsOf rs
    if !vision.isEmpty then
      text ++ "【비전/전략 관련 정보】\n\n" ++ renderPlainFrom 1 (vision.take 5)
    else
      text ++ "최근 비전/전략 관련 정보를 찾을 수 없습니다.\n\n"
        ++ (if rs.isEmpty then "" else "【일반 검색 결과】\n\n" ++ renderPlainFrom 1 (rs.take 3))

/-- Tail of the quota-exceeded message after the section name. -/
def quotaTail : String :=
  " 생성 실패: OpenAI API 할당량 초과\n\n현재 OpenAI API 계정의 크레딧이 부족하거나 할당량을 초과했습니다.\n\n해결 방법:\n1. OpenAI 대시보드에서 계정 상태 확인: https://platform.openai.com/account/usage\n2. 결제 정보를 추가하거나 크레딧을 충전하세요\n3. 또는 다른 OpenAI API 키를 사용하세요\n\n자세한 정보: https://platform.openai.com/docs/guides/error-codes/api-errors"

/-- The quota-exceeded message of `_format_openai_error` (names the
billing dashboard). -/
def quotaErrorMsg (sectionName : String) : String :=
  "❌ " ++ sectionName ++ quotaTail

/-- Tail of the authentication-failure message after the section
name. -/
def authTail : String :=
  " 생성 실패: OpenAI API 키 오류\n\nAPI 키가 유효하지 않거나 만료되었습니다.\n\n해결 방법:\n1. .env 파일의 OPENAI_API_KEY가 올바른지 확인하세요\n2. https://platform.openai.com/api-keys 에서 새 API 키를 발급받으세요"

/-- The authentication-failure message of `_format_openai_error`
(names the key-rotation page). -/
def authErrorMsg (sectionName : String) : String :=
  "❌ " ++ sectionName ++ authTail

/-- The part of the generic message between the section name and the
raw error text. -/
def genericMid : String :=
  " 생성 중 오류 발생\n\n오류 내용: "

/-- Tail of the generic message after the raw error text. -/
def genericTail : String :=
  "\n\n문제가 지속되면:\n- 네트워크 연결을 확인하세요\n- OpenAI 서비스 상태를 확인하세요: https://status.openai.com/\n- API 키와 계정 상태를 확인하세요"

/-- The generic message of `_format_openai_error` (quotes the raw
error text). -/
def genericErrorMsg (errorStr sectionName : String) : String :=
  "❌ " ++ sectionName ++ genericMid ++ errorStr ++ genericTail

/-- The quota condition of `_format_openai_error`. -/
def isQuotaError (errorStr : String) : Bool :=
  strContains errorStr "insufficient_quota" || strContains errorStr "429"

/-- The authentication condition of `_format_openai_error`. -/
def isAuthError (errorStr : String) : Bool :=
  strContains errorStr "invalid_api_key" || strContains errorStr "401"

/-- `_format_openai_error`: substring classification of the string
representation of the error, quota markers checked first, then
authentication markers, otherwise the generic message. -/
def formatOpenAIError (errorStr sectionName : String) : String :=
  if isQuotaError errorStr then quotaErrorMsg sectionName
  else if isAuthError errorStr then authErrorMsg sectionName
  else genericErrorMsg errorStr sectionName

/-- The numbered title and indented snippet items of the overview
context (1-based). -/
def ctxItemsFrom : Nat → List SearchResult → String
  | _, [] => ""
  | i, r :: rest =>
    toString i ++ ". " ++ r.title ++ "\n   " ++ r.snippet ++ "\n\n"
      ++ ctxItemsFrom (i + 1) rest

/-- The dash-prefixed title-colon-snippet items used by the talent and
vision contexts. -/
def ctxDashItems : List SearchResult → String
  | [] => ""
  | r :: rest => "- " ++ r.title ++ ": " ++ r.snippet ++ "\n" ++ ctxDashItems rest

/-- The bracket-dated news items of the vision context news branch
(date entry absent defaults to 날짜 미상). -/
def visionCtxNews : List SearchResult → String
  | [] => ""
  | r :: rest =>
    "- [" ++ r.date.getD "날짜 미상" ++ "] " ++ r.title ++ "\n  " ++ r.snippet ++ "\n\n"
      ++ visionCtxNews rest

/-- The context block of `_generate_overview`. -/
def overviewContext (companyName : String) (rs : List SearchResult) (wc : Option String) :
    String :=
  let c := "회사 이름: " ++ companyName ++ "\n\n"
  let c := c ++ (if rs.isEmpty then "" else "검색 결과:\n" ++ ctxItemsFrom 1 (rs.take 5))
  c ++ (if wcTruthy wc then
          "\n회사 홈페이지 내용 (일부):\n" ++ strTake (wc.getD "") 2000 ++ "\n"
        else "")

/-- The user prompt of `_generate_overview`. -/
def overviewPrompt (companyName : String) (rs : List SearchResult) (wc : Option String) :
    String :=
  "다음 정보를 바탕으로 " ++ companyName ++ "의 회사 개요를 한국어로 작성해주세요.\n회사 개요에는 다음 내용이 포함되어야 합니다:\n- 회사의 주요 사업 분야\n- 회사의 규모와 위치\n- 회사의 주요 제품/서비스\n- 회사의 특징이나 강점\n\n정보:\n"
    ++ overviewContext companyName rs wc
    ++ "\n\n회사 개요를 3-5문단으로 작성해주세요. 객관적이고 정확한 정보만 포함해주세요."

/-- The context block of `_generate_talent_profile`. -/
def talentContext (companyName : String) (rs : List SearchResult) (wc : Option String) :
    String :=
  let c := "회사 이름: " ++ companyName ++ "\n\n"
  let talent := talentResultsGen rs
  let c := c ++ (if talent.isEmpty then "" else "인재상 관련 정보:\n" ++ ctxDashItems (talent.take 3))
  c ++ (if wcTalentRelevant wc then
          "\n홈페이지 인재상 관련 내용:\n" ++ strTake (wc.getD "") 1500 ++ "\n"
        else "")

/-- The user prompt of `_generate_talent_profile`. -/
def talentPrompt (companyName : String) (rs : List SearchResult) (wc : Option String) :
    String :=
  "다음 정보를 바탕으로 " ++ companyName ++ "의 인재상과 인재상 키워드를 한국어로 작성해주세요.\n인재상에는 다음 내용이 포함되어야 합니다:\n- 회사가 선호하는 인재의 특성\n- 인재상 키워드 (3-5개)\n- 회사가 중시하는 가치관이나 역량\n\n정보:\n"
    ++ talentContext companyName rs wc
    ++ "\n\n인재상을 2-4문단으로 작성하고, 마지막에 \"인재상 키워드: [키워드1, 키워드2, ...]\" 형식으로 정리해주세요."

/-- The context block of `_generate_recent_vision` (vision keywords
consulted only when the news filter is empty). -/
def visionContext (companyName : String) (rs : List SearchResult) : String :=
  let news := newsResultsOf rs
  let c := "회사 이름: " ++ companyName ++ "\n\n"
  if !news.isEmpty then
    c ++ "최근 뉴스/기사:\n" ++ visionCtxNews (news.take 5)
  else
    let vision := visionResultsOf rs
    if vision.isEmpty then c
    else c ++ "비전/전략 관련 정보:\n" ++ ctxDashItems (vision.take 3)

/-- The user prompt of `_generate_recent_vision`. -/
def visionPrompt (companyName : String) (rs : List SearchResult) : String :=
  "다음 정보를 바탕으로 " ++ companyName ++ "의 최근 비전과 전략을 한국어로 작성해주세요.\n최근 비전에는 다음 내용이 포함되어야 합니다:\n- 회사의 최근 발표된 비전이나 목표\n- 중장기 전략 방향\n- 최근 주요 이슈나 변화\n\n정보:\n"
    ++ visionContext companyName rs
    ++ "\n\n최근 비전을 3-5문단으로 작성해주세요. 최근 뉴스나 기사를 기반으로 한 구체적인 내용을 포함해주세요."

/-- `_generate_overview`: the model call and response extraction sit
inside `try/except`; any failure is rendered by `_format_openai_error`
instead of propagating. -/
def generateOverview (env : Env) (companyName : String) (rs : List SearchResult)
    (wc : Option String) : String :=
  match env.modelCall "당신은 회사 정보를 분석하고 요약하는 전문가입니다."
      (overviewPrompt companyName rs wc) with
  | .ok content => strStrip content
  | .error e => formatOpenAIError e "회사 개요"

/-- `_generate_talent_profile`, with the same error policy. -/
def generateTalentProfile (env : Env) (companyName : String) (rs : List SearchResult)
    (wc : Option String) : String :=
  match env.modelCall "당신은 회사 인재상을 분석하는 전문가입니다."
      (talentPrompt companyName rs wc) with
  | .ok content => strStrip content
  | .error e => formatOpenAIError e "인재상"

/-- `_generate_recent_vision`, with the same error policy. -/
def generateRecentVision (env : Env) (companyName : String) (rs : List SearchResult) :
    String :=
  match env.modelCall "당신은 회사 비전과 전략을 분석하는 전문가입니다."
      (visionPrompt companyName rs) with
  | .ok content => strStrip content
  | .error e => formatOpenAIError e "최근 비전"

/-- The three-field dataclass `CompanySummaryResult`. -/
structure CompanySummaryResult where
  overview : Option String
  talent_profile : Option String
  recent_vision : Option String
deriving Repr, DecidableEq

/-- `CompanySummaryResult.to_dict`. -/
def toDict (r : CompanySummaryResult) : List (String × Option String) :=
  [("overview", r.overview), ("talent_profile", r.talent_profile),
   ("recent_vision", r.recent_vision)]

/-- `CompanySummarizer.summarize_company`: search, optional homepage
fetch, then the three sections by model call (client configured) or by
deterministic formatting, packed into the three-field dict. -/
def summarizeCompany (env : Env) (companyName : String) (companyUrl : Option String) :
    List (String × Option String) :=
  let searchResults := searchCompanyInfo env companyName companyUrl
  let websiteContent :=
    match companyUrl with
    | some u => fetchWebsiteContent env u
    | none => none
  match env.hasClient with
  | true =>
    toDict
      { overview := some (generateOverview env companyName searchResults websiteContent),
        talent_profile := some (generateTalentProfile env companyName searchResults websiteContent),
        recent_vision := some (generateRecentVision env companyName searchResults) }
  | false =>
    toDict
      { overview := some (formatOverview companyName searchResults websiteContent),
        talent_profile := some (formatTalentProfile companyName searchResults websiteContent),
        recent_vision := some (formatVision companyName searchResults) }

/-- Outcome of the CLI driver `main`. -/
inductive MainOutcome where
  | rejected : MainOutcome
  | completed : List (String × Option String) → MainOutcome
deriving Repr, DecidableEq

/-- The CLI flow of `main.py`: both inputs are stripped, the empty
company name is rejected before the summarizer is invoked, an empty
URL becomes `None`. -/
def mainFlow (env : Env) (rawName rawUrl : String) : MainOutcome :=
  let companyName := strStrip rawName
  let companyUrl := if strStrip rawUrl = "" then none else some (strStrip rawUrl)
  if companyName = "" then .rejected
  else .completed (summarizeCompany env companyName companyUrl)

/-- A URL is absolute exactly when it carries an explicit scheme; the
source itself tests this with `link.startswith("http")`. -/
def isAbsoluteUrl (s : String) : Bool :=
  strStarts s "http"

/-- A candidate block is accepted by the extractor exactly when its
title element chain finds an element with non-empty stripped text. -/
def acceptsTitle (e : Element) : Bool :=
  match findTitleElem e with
  | some t => t.getText != ""
  | none => false

/-- The news branch of `_format_search_results_as_vision`, taken when
the news filter is non-empty; it never consults the vision keywords. -/
def visionNewsText (companyName : String) (rs : List SearchResult) : String :=
  "=== " ++ companyName ++ " 최근 비전 및 전략 ===\n\n"
    ++ "【최근 뉴스/기사】\n\n" ++ renderNewsFrom 1 ((newsResultsOf rs).take 5)

/-- The empty-news branch of `_format_search_results_as_vision`: the
vision-keyword filter is consulted only here. -/
def visionFallbackText (companyName : String) (rs : List SearchResult) : String :=
  let text := "=== " ++ companyName ++ " 최근 비전 및 전략 ===\n\n"
  let vision := visionResultsOf rs
  if !vision.isEmpty then
    text ++ "【비전/전략 관련 정보】\n\n" ++ renderPlainFrom 1 (vision.take 5)
  else
    text ++ "최근 비전/전략 관련 정보를 찾을 수 없습니다.\n\n"
      ++ (if rs.isEmpty then "" else "【일반 검색 결과】\n\n" ++ renderPlainFrom 1 (rs.take 3))

/-- The news branch of the `_generate_recent_vision` context. -/
def visionCtxNewsText (companyName : String) (rs : List SearchResult) : String :=
  "회사 이름: " ++ companyName ++ "\n\n"
    ++ "최근 뉴스/기사:\n" ++ visionCtxNews ((newsResultsOf rs).take 5)

/-- The empty-news branch of the `_generate_recent_vision` context:
the vision-keyword filter is consulted only here. -/
def visionCtxFallbackText (companyName : String) (rs : List SearchResult) : String :=
  let c := "회사 이름: " ++ companyName ++ "\n\n"
  let vision := visionResultsOf rs
  if vision.isEmpty then c
  else c ++ "비전/전략 관련 정보:\n" ++ ctxDashItems (vision.take 3)

/-- A fully failing environment: no keys, no client, every outbound
call errors. -/
def baseEnv : Env :=
  { serpapiKey := none, hasClient := false,
    serpGeneral := .error "err", serpNews := .error "err",
    httpGet := fun _ => .error "err",
    httpHead := fun _ => .error "err",
    modelCall := fun _ _ => .error "err" }

/-- A DuckDuckGo results page with one titled result block. -/
def pageTitled (title : String) : HtmlPage :=
  { status := 200,
    root := [Element.mk "div" ["result"] []  "" [
      Element.mk "a" ["result__a"] [("href", "https://ex.example.com/a")] title []]] }

/-- Environment whose search pages carry the result 알파결과. -/
def envDdgA : Env :=
  { baseEnv with httpGet := fun _ => .ok (pageTitled "알파결과") }

/-- Environment whose search pages carry the result 베타결과. -/
def envDdgB : Env :=
  { baseEnv with httpGet := fun _ => .ok (pageTitled "베타결과") }

/-- Environment whose HEAD oracle always resolves to one absolute
URL. -/
def envHeadOk : Env :=
  { baseEnv with httpHead := fun _ => .ok "https://resolved.example.com/page" }

/-- One result block whose anchor href is a redirect-wrapper path. -/
def docWrapped : List Element :=
  [Element.mk "div" ["result"] [] "" [
    Element.mk "a" ["result__a"] [("href", "/l/?kh=1&uddg=abc")] "T" []]]

/-- One strategy-A result block containing no anchor at all. -/
def docUntitledA : List Element :=
  [Element.mk "div" ["result"] [] "" []]

/-- Two titled strategy-A result blocks. -/
def docTwoTitledA : List Element :=
  [Element.mk "div" ["result"] [] "" [
      Element.mk "a" ["result__a"] [("href", "https://one.example.com")] "첫째결과" []],
   Element.mk "div" ["result"] [] "" [
      Element.mk "a" ["result__a"] [("href", "https://two.example.com")] "둘째결과" []]]

/-- One strategy-C-only block (class `results`) with no anchor. -/
def docUntitledC : List Element :=
  [Element.mk "div" ["results"] [] "" []]

/-- One titled strategy-C-only block (class `results`). -/
def docTitledC : List Element :=
  [Element.mk "div" ["results"] [] "" [
    Element.mk "a" [] [("href", "https://c.example.com")] "씨결과" []]]

/-- Environment whose model oracle always raises a 429 quota error. -/
def envModelErr : Env :=
  { baseEnv with modelCall := fun _ _ => .error "Error code: 429 - quota exceeded" }

/-! Helper lemmas. -/

theorem charsMatchAt_nil (l : List Char) : charsMatchAt [] l = true := by
  cases l <;> rfl

theorem charsMatchAt_append (n a b : List Char) (h : charsMatchAt n a = true) :
    charsMatchAt n (a ++ b) = true := by
  induction n generalizing a with
  | nil => exact charsMatchAt_nil _
  | cons x xs ih =>
    cases a with
    | nil => simp [charsMatchAt] at h
    | cons y ys =>
      simp only [charsMatchAt, Bool.and_eq_true] at h
      simp only [List.cons_append, charsMatchAt, Bool.and_eq_true]
      exact ⟨h.1, ih ys h.2⟩

theorem charsContain_nil_needle (l : List Char) : charsContain [] l = true := by
  cases l with
  | nil => rfl
  | cons c cs => simp [charsContain, charsMatchAt_nil]

theorem charsContain_append_right (n h1 h2 : List Char) (h : charsContain n h2 = true) :
    charsContain n (h1 ++ h2) = true := by
  induction h1 with
  | nil => simpa using h
  | cons c cs ih =>
    simp only [List.cons_append, charsContain, Bool.or_eq_true]
    exact Or.inr ih

theorem charsContain_append_left (n h1 h2 : List Char) (h : charsContain n h1 = true) :
    charsContain n (h1 ++ h2) = true := by
  induction h1 with
  | nil =>
    simp only [charsContain] at h
    cases n with
    | nil => exact charsContain_nil_needle _
    | cons x xs => simp [charsMatchAt] at h
  | cons c cs ih =>
    simp only [charsContain, Bool.or_eq_true] at h
    simp only [List.cons_append, charsContain, Bool.or_eq_true]
    cases h with
    | inl hm => exact Or.inl (charsMatchAt_append n (c :: cs) h2 hm)
    | inr hc => exact Or.inr (ih hc)

theorem charsMatchAt_refl (n : List Char) : charsMatchAt n n = true := by
  induction n with
  | nil => rfl
  | cons x xs ih => simp [charsMatchAt, ih]

theorem charsContain_refl (n : List Char) : charsContain n n = true := by
  cases n with
  | nil => rfl
  | cons x xs => simp [charsContain, charsMatchAt_refl]

theorem strDataAppend (a b : String) : (a ++ b).data = a.data ++ b.data := rfl

theorem strContains_append_right (a b n : String) (h : strContains b n = true) :
    strContains (a ++ b) n = true := by
  unfold strContains at *
  rw [strDataAppend]
  exact charsContain_append_right _ _ _ h

theorem strContains_append_left (a b n : String) (h : strContains a n = true) :
    strContains (a ++ b) n = true := by
  unfold strContains at *
  rw [strDataAppend]
  exact charsContain_append_left _ _ _ h

theorem strContains_self (s : String) : strContains s s = true :=
  charsContain_refl s.data

theorem strStarts_append (a b pre : String) (h : strStarts a pre = true) :
    strStarts (a ++ b) pre = true := by
  unfold strStarts at *
  rw [strDataAppend]
  exact charsMatchAt_append _ _ _ h

theorem strExt (a b : String) (h : a.data = b.data) : a = b := by
  cases a with
  | mk la =>
    cases b with
    | mk lb => exact congrArg String.mk h

theorem strAppendCancel (p a b : String) (h : p ++ a = p ++ b) : a = b := by
  have hd := congrArg String.data h
  rw [strDataAppend, strDataAppend] at hd
  exact strExt a b (List.append_cancel_left hd)

theorem extractOne_isSome (env : Env) (isNews : Bool) (e : Element) :
    (extractOne env isNews e).isSome = acceptsTitle e := by
  unfold extractOne acceptsTitle
  cases hfe : findTitleElem e with
  | none => rfl
  | some t =>
    by_cases ht : t.getText = ""
    · simp [ht]
    · simp [ht, bne_iff_ne]

theorem extractOne_some (env : Env) (isNews : Bool) (e : Element) (r : SearchResult)
    (h : extractOne env isNews e = some r) :
    r.title ≠ "" ∧ ∃ l0, r.link = normalizeLink env l0 := by
  unfold extractOne at h
  cases hfe : findTitleElem e with
  | none => rw [hfe] at h; exact absurd h (by simp)
  | some t =>
    rw [hfe] at h
    by_cases ht : t.getText = ""
    · simp only [ht, if_pos rfl] at h
      exact absurd h (by simp)
    · simp only [if_neg ht] at h
      cases h
      exact ⟨ht, Element.getAttr t "href" "", rfl⟩

theorem ddgLoop_mem (env : Env) (isNews : Bool) (cands : List Element) (fuel : Nat)
    (r : SearchResult) (h : r ∈ ddgLoop env isNews cands fuel) :
    ∃ e ∈ cands, extractOne env isNews e = some r := by
  induction cands generalizing fuel with
  | nil => simp [ddgLoop] at h
  | cons e es ih =>
    rw [ddgLoop] at h
    cases hx : extractOne env isNews e with
    | none =>
      rw [hx] at h
      obtain ⟨e2, he2, hex⟩ := ih fuel h
      exact ⟨e2, List.mem_cons_of_mem _ he2, hex⟩
    | some r2 =>
      rw [hx] at h
      by_cases hf : fuel ≤ 1
      · simp only [if_pos hf, List.mem_singleton] at h
        exact ⟨e, List.mem_cons_self _ _, h ▸ hx⟩
      · simp only [if_neg hf, List.mem_cons] at h
        cases h with
        | inl heq => exact ⟨e, List.mem_cons_self _ _, heq ▸ hx⟩
        | inr hmem =>
          obtain ⟨e2, he2, hex⟩ := ih (fuel - 1) hmem
          exact ⟨e2, List.mem_cons_of_mem _ he2, hex⟩

theorem ddgLoop_eq_filterMap (env : Env) (isNews : Bool) (cands : List Element) (fuel : Nat)
    (hlen : cands.length ≤ fuel) :
    ddgLoop env isNews cands fuel = cands.filterMap (extractOne env isNews) := by
  induction cands generalizing fuel with
  | nil => simp [ddgLoop]
  | cons e es ih =>
    rw [ddgLoop]
    cases hx : extractOne env isNews e with
    | none =>
      dsimp only
      rw [List.filterMap_cons_none hx]
      exact ih fuel (by simpa using Nat.le_of_succ_le hlen)
    | some r =>
      dsimp only
      rw [List.filterMap_cons_some hx]
      by_cases hf : fuel ≤ 1
      · have hes : es = [] := by
          cases es with
          | nil => rfl
          | cons x xs => simp at hlen; omega
        subst hes
        simp [hf]
      · rw [if_neg hf]
        have : es.length ≤ fuel - 1 := by simp at hlen; omega
        rw [ih (fuel - 1) this]

theorem length_filterMap_of_isSome {α β : Type} (f : α → Option β) (l : List α)
    (h : ∀ e ∈ l, (f e).isSome = true) : (l.filterMap f).length = l.length := by
  induction l with
  | nil => rfl
  | cons e es ih =>
    cases hx : f e with
    | none =>
      have := h e (List.mem_cons_self _ _)
      rw [hx] at this
      simp at this
    | some r =>
      rw [List.filterMap_cons_some hx]
      simp only [List.length_cons]
      rw [ih (fun e2 he2 => h e2 (List.mem_cons_of_mem _ he2))]

theorem take_not_isEmpty (l : List Element) (m : Nat) (hl : l.isEmpty = false)
    (hm : 0 < m) : (l.take m).isEmpty = false := by
  cases l with
  | nil => simp at hl
  | cons x xs =>
    cases m with
    | zero => omega
    | succ k => simp [List.take]

theorem select_stratA (doc : List Element) (m : Nat)
    (h : (docFindAll doc isResultDiv).isEmpty = false) (hm : 0 < m) :
    selectResultElements doc m = (docFindAll doc isResultDiv).take m := by
  unfold selectResultElements
  simp only [take_not_isEmpty _ m h hm, Bool.not_false, if_true]

theorem select_stratC (doc : List Element) (m : Nat)
    (hA : (docFindAll doc isResultDiv).isEmpty = true)
    (hB : (docFindAll doc isWebResultDiv).isEmpty = true) :
    selectResultElements doc m = (docFindAll doc isResultLikeDiv).take m := by
  unfold selectResultElements
  have hA2 : docFindAll doc isResultDiv = [] := by
    cases hx : docFindAll doc isResultDiv with
    | nil => rfl
    | cons a as => rw [hx] at hA; simp at hA
  have hB2 : docFindAll doc isWebResultDiv = [] := by
    cases hx : docFindAll doc isWebResultDiv with
    | nil => rfl
    | cons a as => rw [hx] at hB; simp at hB
  rw [hA2, hB2]
  simp

theorem normalizeLink_spec (env : Env)
    (hHead : ∀ u, ∃ v, env.httpHead u = Except.ok v ∧ v ≠ "" ∧ isAbsoluteUrl v = true)
    (l : String) :
    normalizeLink env l = "" ∨ isAbsoluteUrl (normalizeLink env l) = true := by
  unfold normalizeLink
  by_cases h1 : (strStarts l "/l/?kh=" || strStarts l "/l/?") = true
  · rw [if_pos h1]
    obtain ⟨v, hv, hne, habs⟩ := hHead ("https://duckduckgo.com" ++ l)
    rw [hv]
    dsimp only
    have hvb : (v != "") = true := by simpa [bne_iff_ne] using hne
    rw [if_pos hvb]
    exact Or.inr habs
  · rw [if_neg h1]
    by_cases h2 : strStarts l "http" = true
    · simp only [h2, Bool.not_true, if_neg (by simp : ¬ (false = true))]
      exact Or.inr h2
    · have h2f : strStarts l "http" = false := by
        cases hx : strStarts l "http" with
        | false => rfl
        | true => exact absurd hx h2
      simp only [h2f, Bool.not_false, if_pos rfl]
      refine Or.inr ?_
      unfold isAbsoluteUrl
      exact strStarts_append "https://duckduckgo.com" l "http" (by decide)

/-! Claim theorems. -/

/-- C1: for every environment — hence every pattern of failures of the
search, homepage-fetch and model calls — and all inputs,
`summarize_company` returns the dict with exactly the three fields
`overview`, `talent_profile`, `recent_vision`, each populated with a
string.  The embedding is a total function of the oracle outcomes, so
no failure of the pipeline escapes as an exception. -/
theorem c1_summarize_company_total (env : Env) (companyName : String)
    (companyUrl : Option String) :
    (summarizeCompany env companyName companyUrl).map Prod.fst
        = ["overview", "talent_profile", "recent_vision"]
    ∧ (summarizeCompany env companyName companyUrl).all (fun p => p.snd.isSome) = true := by
  cases hc : env.hasClient <;> simp [summarizeCompany, hc, toDict]

/-- C2 (counterexample): called directly with an empty company name,
`summarize_company` is not rejected before I/O — its output depends on
the DuckDuckGo HTTP response, so the pipeline runs and an HTTP request
is issued.  Two environments differing only in the fetched page give
different outputs at the empty name. -/
theorem c2_counterexample :
    summarizeCompany envDdgA "" none ≠ summarizeCompany envDdgB "" none := by decide

/-- C2 (amended): the empty-name rejection lives in the CLI driver
`main`, not in `summarize_company`: `main` rejects a blank company name
before the summarizer is invoked, returning the constant `rejected`
outcome whatever the environment, so no HTTP request is issued. -/
theorem c2_main_rejects_empty (env : Env) (rawName rawUrl : String)
    (h : strStrip rawName = "") : mainFlow env rawName rawUrl = MainOutcome.rejected := by
  simp [mainFlow, h]

/-- Witness for the amended C2 at a concrete blank input. -/
theorem c2_main_rejects_empty_witness : mainFlow baseEnv "   " "" = MainOutcome.rejected :=
  c2_main_rejects_empty baseEnv "   " "" (by decide)

/-- C3: the free-scrape search GET is issued against the hard-coded
literal URL for every query, not against the URL built from the
URL-encoded computed query; the two differ on the computed general
query, witnessing the leftover-debug defect the spec flags. -/
theorem c3_hardcoded_query_url :
    ddgRequestUrl "Acme 회사 소개 인재상" = "https://duckduckgo.com/html/?q=미래시스템"
    ∧ ddgRequestUrl "삼성전자 최근 뉴스 비전 전략" = "https://duckduckgo.com/html/?q=미래시스템"
    ∧ specDdgRequestUrl "Acme 회사 소개 인재상"
        = "https://duckduckgo.com/html/?q=Acme+%ED%9A%8C%EC%82%AC+%EC%86%8C%EA%B0%9C+%EC%9D%B8%EC%9E%AC%EC%83%81"
    ∧ ddgRequestUrl "Acme 회사 소개 인재상" ≠ specDdgRequestUrl "Acme 회사 소개 인재상" :=
  ⟨rfl, rfl, by decide, by decide⟩

/-- C4 (counterexample): when the HEAD resolution of a redirect-wrapper
link fails, the kept link is the original relative wrapper path, which
is neither empty nor an absolute URL. -/
theorem c4_counterexample :
    ddgExtract baseEnv docWrapped 5 false
        = [{ title := "T", snippet := "", link := "/l/?kh=1&uddg=abc", date := none }]
    ∧ ¬("/l/?kh=1&uddg=abc" = "" ∨ isAbsoluteUrl "/l/?kh=1&uddg=abc" = true) := by decide

/-- C4 (amended): every kept link is empty or an absolute URL provided
every redirect-wrapper HEAD resolution succeeds with a non-empty
absolute final URL; a failed or empty resolution instead keeps the
relative wrapper path. -/
theorem c4_links_absolute (env : Env) (doc : List Element) (maxResults : Nat)
    (isNews : Bool) (r : SearchResult)
    (hHead : ∀ u, ∃ v, env.httpHead u = Except.ok v ∧ v ≠ "" ∧ isAbsoluteUrl v = true)
    (hr : r ∈ ddgExtract env doc maxResults isNews) :
    r.link = "" ∨ isAbsoluteUrl r.link = true := by
  unfold ddgExtract at hr
  obtain ⟨e, he, hex⟩ := ddgLoop_mem env isNews _ maxResults r hr
  obtain ⟨hti, l0, hlink⟩ := extractOne_some env isNews e r hex
  rw [hlink]
  exact normalizeLink_spec env hHead l0

/-- Witness for the amended C4: a wrapper link resolved by a successful
HEAD request is kept as the absolute final URL. -/
theorem c4_links_absolute_witness :
    ({ title := "T", snippet := "", link := "https://resolved.example.com/page", date := none } : SearchResult).link = ""
    ∨ isAbsoluteUrl ({ title := "T", snippet := "", link := "https://resolved.example.com/page", date := none } : SearchResult).link = true :=
  c4_links_absolute envHeadOk docWrapped 5 false _
    (fun _ => ⟨"https://resolved.example.com/page", rfl, by decide, by decide⟩)
    (by decide)

/-- C5 (counterexample): a well-formed document with one strategy-A
result block that yields no title produces zero results, not
`min(N,5) = 1`: title-less blocks are skipped, so the count can fall
short of `min(N,5)`. -/
theorem c5_counterexample :
    (docFindAll docUntitledA isResultDiv).length = 1
    ∧ (ddgExtract baseEnv docUntitledA 5 false).length = 0
    ∧ (ddgExtract baseEnv docUntitledA 5 false).length
        ≠ min (docFindAll docUntitledA isResultDiv).length 5 := by decide

/-- C5 (amended): when strategy A matches at least one block and each
of the first five strategy-A blocks yields a non-empty title,
extraction with `max_results = 5`, `is_news = False` returns exactly
`min(N,5)` results, each with a non-empty title, and the results are
exactly those extracted from the first five strategy-A blocks —
candidates beyond `max_results` are never examined. -/
theorem c5_strategyA_extraction (env : Env) (doc : List Element)
    (hne : (docFindAll doc isResultDiv).isEmpty = false)
    (hall : ((docFindAll doc isResultDiv).take 5).all acceptsTitle = true) :
    (ddgExtract env doc 5 false).length = min (docFindAll doc isResultDiv).length 5
    ∧ (∀ r ∈ ddgExtract env doc 5 false, r.title ≠ "")
    ∧ ddgExtract env doc 5 false
        = ((docFindAll doc isResultDiv).take 5).filterMap (extractOne env false) := by
  have hfm : ddgExtract env doc 5 false
      = ((docFindAll doc isResultDiv).take 5).filterMap (extractOne env false) := by
    unfold ddgExtract
    rw [select_stratA doc 5 hne (by omega)]
    exact ddgLoop_eq_filterMap env false _ 5 (List.length_take_le _ _)
  refine ⟨?_, ?_, hfm⟩
  · rw [hfm, length_filterMap_of_isSome, List.length_take, Nat.min_comm]
    intro e he
    rw [extractOne_isSome]
    exact List.all_eq_true.mp hall e he
  · intro r hr
    rw [hfm] at hr
    obtain ⟨e, _, hex⟩ := List.mem_filterMap.mp hr
    exact (extractOne_some env false e r hex).1

/-- Witness for the amended C5 on a document with two titled
strategy-A blocks. -/
theorem c5_strategyA_extraction_witness :
    (ddgExtract baseEnv docTwoTitledA 5 false).length
      = min (docFindAll docTwoTitledA isResultDiv).length 5 :=
  (c5_strategyA_extraction baseEnv docTwoTitledA (by decide) (by decide)).1

/-- C6 (counterexample): with zero strategy-A and strategy-B matches
and one strategy-C block that yields no title, extraction returns zero
results even though a fallback candidate exists. -/
theorem c6_counterexample :
    (docFindAll docUntitledC isResultDiv).isEmpty = true
    ∧ (docFindAll docUntitledC isWebResultDiv).isEmpty = true
    ∧ (docFindAll docUntitledC isResultLikeDiv).length = 1
    ∧ (ddgExtract baseEnv docUntitledC 5 false).length = 0 := by decide

/-- C6 (amended): with zero strategy-A and strategy-B matches,
extraction falls through to strategy C without merging across
strategies; when each of the first five strategy-C blocks yields a
non-empty title it returns exactly `min(M,5)` results, all extracted
from strategy-C blocks alone. -/
theorem c6_fallback_strategyC (env : Env) (doc : List Element)
    (hA : (docFindAll doc isResultDiv).isEmpty = true)
    (hB : (docFindAll doc isWebResultDiv).isEmpty = true)
    (_hC : (docFindAll doc isResultLikeDiv).isEmpty = false)
    (hall : ((docFindAll doc isResultLikeDiv).take 5).all acceptsTitle = true) :
    (ddgExtract env doc 5 false).length = min (docFindAll doc isResultLikeDiv).length 5
    ∧ ddgExtract env doc 5 false
        = ((docFindAll doc isResultLikeDiv).take 5).filterMap (extractOne env false) := by
  have hfm : ddgExtract env doc 5 false
      = ((docFindAll doc isResultLikeDiv).take 5).filterMap (extractOne env false) := by
    unfold ddgExtract
    rw [select_stratC doc 5 hA hB]
    exact ddgLoop_eq_filterMap env false _ 5 (List.length_take_le _ _)
  refine ⟨?_, hfm⟩
  rw [hfm, length_filterMap_of_isSome, List.length_take, Nat.min_comm]
  intro e he
  rw [extractOne_isSome]
  exact List.all_eq_true.mp hall e he

/-- Witness for the amended C6 on a document with one titled
strategy-C-only block. -/
theorem c6_fallback_strategyC_witness :
    (ddgExtract baseEnv docTitledC 5 false).length
      = min (docFindAll docTitledC isResultLikeDiv).length 5 :=
  (c6_fallback_strategyC baseEnv docTitledC (by decide) (by decide) (by decide)
    (by decide)).1

/-- C7: both talent filters keep a result exactly when the
concatenation of its lower-cased title and snippet contains a talent
keyword; the two keyword lists of the source agree (one merely repeats
인재상), the complement keeps nothing, and classification is pure
order-preserving filtering. -/
theorem c7_talent_classification (rs : List SearchResult) (r : SearchResult) :
    talentResultsGen rs = talentResultsFmt rs
    ∧ talentResultsFmt rs = rs.filter hasTalentKw
    ∧ (r ∈ talentResultsFmt rs ↔ (r ∈ rs ∧ hasTalentKw r = true))
    ∧ List.Sublist (talentResultsFmt rs) rs := by
  have hpred : ∀ x : SearchResult,
      (talentKeywordsGen.any fun k => strContains (strLower x.title ++ strLower x.snippet) k)
        = (talentKeywordsFmt.any fun k =>
            strContains (strLower x.title ++ strLower x.snippet) k) := by
    intro x
    simp only [talentKeywordsGen, talentKeywordsFmt, List.any_cons, List.any_nil,
      Bool.or_false]
    cases strContains (strLower x.title ++ strLower x.snippet) "인재상" <;> simp
  have h1 : talentResultsGen rs = talentResultsFmt rs := by
    unfold talentResultsGen talentResultsFmt
    exact List.filter_congr (fun x _ => hpred x)
  have h2 : talentResultsFmt rs = rs.filter hasTalentKw := rfl
  refine ⟨h1, h2, ?_, ?_⟩
  · rw [h2]
    exact List.mem_filter
  · rw [h2]
    exact List.filter_sublist rs

/-- C8: the news filter keeps exactly the results with a truthy date
entry or a 뉴스/기사 marker in the title, and both the fallback vision
formatter and the model-path vision context take the news branch
whenever that filter is non-empty — the vision-keyword classification
is consulted only on the empty-news branch. -/
theorem c8_news_then_vision (rs : List SearchResult) (companyName : String)
    (r : SearchResult) :
    newsResultsOf rs = rs.filter isNewsResult
    ∧ (r ∈ newsResultsOf rs ↔ (r ∈ rs ∧ isNewsResult r = true))
    ∧ isNewsResult r
        = ((r.date.getD "" != "") || strContains (strLower r.title) "뉴스"
            || strContains (strLower r.title) "기사")
    ∧ formatVision companyName rs
        = (if (newsResultsOf rs).isEmpty then visionFallbackText companyName rs
           else visionNewsText companyName rs)
    ∧ visionContext companyName rs
        = (if (newsResultsOf rs).isEmpty then visionCtxFallbackText companyName rs
           else visionCtxNewsText companyName rs) := by
  refine ⟨rfl, List.mem_filter, ?_, ?_, ?_⟩
  · cases hd : r.date <;> simp [isNewsResult, hd]
  · cases hn : (newsResultsOf rs).isEmpty <;>
      simp [formatVision, visionNewsText, visionFallbackText, hn]
  · cases hn : (newsResultsOf rs).isEmpty <;>
      simp [visionContext, visionCtxNewsText, visionCtxFallbackText, hn]

/-- C9: `_format_openai_error` maps quota-marked errors (429 or
insufficient_quota) to the quota message naming the billing dashboard,
auth-marked errors outside the quota category to the key-rotation
message, and all remaining errors to the generic message quoting the
raw error text; and each section generator returns exactly this
formatted message — never a raised error — when the model call fails. -/
theorem c9_model_error_sections (e sectionName : String) (env : Env)
    (companyName : String) (rs : List SearchResult) (wc : Option String) :
    (isQuotaError e = true → formatOpenAIError e sectionName = quotaErrorMsg sectionName)
    ∧ strContains (quotaErrorMsg sectionName) "https://platform.openai.com/account/usage" = true
    ∧ (isQuotaError e = false → isAuthError e = true →
        formatOpenAIError e sectionName = authErrorMsg sectionName)
    ∧ strContains (authErrorMsg sectionName) "https://platform.openai.com/api-keys" = true
    ∧ (isQuotaError e = false → isAuthError e = false →
        formatOpenAIError e sectionName = genericErrorMsg e sectionName)
    ∧ strContains (genericErrorMsg e sectionName) e = true
    ∧ (env.modelCall = (fun _ _ => Except.error e) →
        generateOverview env companyName rs wc = formatOpenAIError e "회사 개요"
        ∧ generateTalentProfile env companyName rs wc = formatOpenAIError e "인재상"
        ∧ generateRecentVision env companyName rs = formatOpenAIError e "최근 비전") := by
  refine ⟨?_, ?_, ?_, ?_, ?_, ?_, ?_⟩
  · intro hq
    simp [formatOpenAIError, hq]
  · unfold quotaErrorMsg
    exact strContains_append_right _ _ _ (by decide)
  · intro hq ha
    simp [formatOpenAIError, hq, ha]
  · unfold authErrorMsg
    exact strContains_append_right _ _ _ (by decide)
  · intro hq ha
    simp [formatOpenAIError, hq, ha]
  · unfold genericErrorMsg
    exact strContains_append_left _ _ _
      (strContains_append_right _ _ _ (strContains_self e))
  · intro hmc
    refine ⟨?_, ?_, ?_⟩ <;> simp [generateOverview, generateTalentProfile,
      generateRecentVision, hmc]

/-- Witness for C9 at a concrete 429 error and a constantly failing
model oracle. -/
theorem c9_model_error_sections_witness :
    formatOpenAIError "Error code: 429 - quota exceeded" "회사 개요" = quotaErrorMsg "회사 개요"
    ∧ strContains (quotaErrorMsg "회사 개요") "https://platform.openai.com/account/usage" = true
    ∧ generateOverview envModelErr "테스트회사" [] none
        = formatOpenAIError "Error code: 429 - quota exceeded" "회사 개요" := by
  have h := c9_model_error_sections "Error code: 429 - quota exceeded" "회사 개요"
    envModelErr "테스트회사" [] none
  exact ⟨h.1 (by decide), h.2.1, (h.2.2.2.2.2.2 rfl).1⟩

/-- The quota message and the authentication message are never the
same string. -/
theorem quotaMsg_ne_authMsg (sectionName : String) :
    quotaErrorMsg sectionName ≠ authErrorMsg sectionName := by
  unfold quotaErrorMsg authErrorMsg
  intro h
  have h2 : quotaTail = authTail := strAppendCancel ("❌ " ++ sectionName) _ _ h
  exact absurd h2 (by decide)

/-- C10: an error text carrying markers of both categories is
classified as quota exceeded — the quota check precedes the
authentication check — and the returned message is the quota message,
not the authentication message. -/
theorem c10_quota_precedence (e sectionName : String)
    (hq : isQuotaError e = true) (_ha : isAuthError e = true) :
    formatOpenAIError e sectionName = quotaErrorMsg sectionName
    ∧ formatOpenAIError e sectionName ≠ authErrorMsg sectionName := by
  have h1 : formatOpenAIError e sectionName = quotaErrorMsg sectionName := by
    simp [formatOpenAIError, hq]
  exact ⟨h1, h1 ▸ quotaMsg_ne_authMsg sectionName⟩

/-- Witness for C10 at an error text containing both 429 and
invalid_api_key. -/
theorem c10_quota_precedence_witness :
    formatOpenAIError "Error code: 429 - invalid_api_key" "인재상" = quotaErrorMsg "인재상"
    ∧ formatOpenAIError "Error code: 429 - invalid_api_key" "인재상" ≠ authErrorMsg "인재상" :=
  c10_quota_precedence "Error code: 429 - invalid_api_key" "인재상" (by decide) (by decide)
